import Mathlib

/-!
Shallow embedding of the LinkedIn-Auth OAuth2 flow controller
(`src/main.rs`): CSRF-state generation (`generate_csrf`), authorization-URL
construction (`generate_auth_code_url`), the code-for-token exchange
(`request_access_key`) and the orchestrating `controller`.

Network transport and JSON parsing are external effects; they are embedded
as explicit inputs: the token exchanger takes the outcome of `send()` (a
transport failure, or a response body given by its JSON parse result), and
the random generator `thread_rng` is a stream of byte draws.
-/

namespace LinkedInAuth

/-- The fixed authorization endpoint, constant `AUTH_URL` in `src/main.rs`. -/
def AUTH_URL : String := "https://www.linkedin.com/oauth/v2/authorization"

/-- The fixed token endpoint, constant `ACCESS_TOKEN_URL` in `src/main.rs`. -/
def ACCESS_TOKEN_URL : String := "https://www.linkedin.com/oauth/v2/accessToken"

/-! ## JSON values (model of `serde_json::Value`) -/

/-- Model of `serde_json::Value`: null, booleans, numbers, strings, arrays
and objects (an object is its ordered field list; parsed objects have
distinct keys). Numbers are modelled as integers, which covers every
number appearing in the claims. -/
inductive Json where
  | null : Json
  | bool (b : Bool) : Json
  | num (n : Int) : Json
  | str (s : String) : Json
  | arr (xs : List Json) : Json
  | obj (fields : List (String × Json)) : Json

/-- Model of `serde_json::Value`'s `Index<&str>` (`data["access_token"]` in
`request_access_key`): on an object, the value of the key if present and
`Null` otherwise; on every non-object value, `Null`. -/
def Json.index (j : Json) (key : String) : Json :=
  match j with
  | .obj fields =>
    match fields.lookup key with
    | some v => v
    | none => .null
  | _ => .null

/-- True exactly on `Json.obj` values. -/
def Json.isObj : Json → Bool
  | .obj _ => true
  | _ => false

/-! ## Token exchanger (`request_access_key`) -/

/-- Outcome of `send()` followed by body parsing, as seen by
`request_access_key`: either the transport failed (`send()?` returns early
with the reqwest error), or a response arrived whose body either parses as
the JSON value `some j` or fails to parse (`none`). -/
inductive SendResult where
  | sendErr : SendResult
  | resp (parsed : Option Json) : SendResult

/-- Result of one run of `request_access_key`, `Result<String, Box<dyn Error>>`
in the source plus the panic outcome: `ok` is `Ok(key.clone())`, `errValue`
is `Err(ValueError.into())`, `errTransport` is the propagated reqwest error
from `send()?`, and `panics` is the abort caused by
`response.json().unwrap()` on an unparsable body. -/
inductive ExchangeOutcome where
  | ok (token : String) : ExchangeOutcome
  | errValue : ExchangeOutcome
  | errTransport : ExchangeOutcome
  | panics : ExchangeOutcome
deriving DecidableEq

/-- The query-pair list `request_access_key` attaches to the token request,
in source order (`src/main.rs` lines 98-103). -/
def request_access_key_query (client_id client_secret auth_code redirect_url csrf : String) :
    List (String × String) :=
  [("response_type", "code"), ("client_id", client_id),
   ("client_secret", client_secret), ("code", auth_code),
   ("redirect_uri", redirect_url), ("state", csrf),
   ("grant_type", "authorization_code")]

/-- One run of `request_access_key`: the query pairs it sends, and the
outcome it produces for the given transport result. Mirrors
`src/main.rs` lines 92-113: `send()?` propagates a transport error;
`response.json().unwrap()` panics when the body is not valid JSON;
otherwise `data["access_token"]` is matched, a string value is cloned and
returned, anything else yields `Err(ValueError)`. -/
structure ExchangeCall where
  queryPairs : List (String × String)
  outcome : ExchangeOutcome

/-- The embedding of `request_access_key` itself. -/
def request_access_key (client_id client_secret auth_code redirect_url csrf : String)
    (net : SendResult) : ExchangeCall :=
  { queryPairs := request_access_key_query client_id client_secret auth_code redirect_url csrf
    outcome :=
      match net with
      | .sendErr => .errTransport
      | .resp parsed =>
        match parsed with
        | none => .panics
        | some data =>
          match data.index "access_token" with
          | .str key => .ok key
          | _ => .errValue }

/-! ## Form-urlencoding (reqwest `.query(...)` via `url::form_urlencoded`) -/

/-- Characters kept verbatim by `url::form_urlencoded` byte serialization
(used by reqwest `.query(...)`): ASCII alphanumerics and `*`, `-`, `.`, `_`. -/
def isFormUnreserved (c : Char) : Bool :=
  (c.isAlphanum && c.toNat < 128) || c = '*' || c = '-' || c = '.' || c = '_'

/-- UTF-8 byte sequence of a character (standard encoding). -/
def utf8Bytes (c : Char) : List Nat :=
  let n := c.toNat
  if n < 0x80 then [n]
  else if n < 0x800 then [0xC0 + n / 64, 0x80 + n % 64]
  else if n < 0x10000 then [0xE0 + n / 4096, 0x80 + n / 64 % 64, 0x80 + n % 64]
  else [0xF0 + n / 262144, 0x80 + n / 4096 % 64, 0x80 + n / 64 % 64, 0x80 + n % 64]

/-- Uppercase hexadecimal digit for a value below 16. -/
def hexDigit (n : Nat) : Char :=
  "0123456789ABCDEF".data.getD n '0'

/-- Percent-encoding of one byte, `%XX` with uppercase hex. -/
def pctByte (b : Nat) : String :=
  String.mk ['%', hexDigit (b / 16 % 16), hexDigit (b % 16)]

/-- `url::form_urlencoded` serialization of one character: space becomes `+`,
unreserved characters are kept, everything else is percent-encoded byte by
byte. -/
def formEncodeChar (c : Char) : String :=
  if c = ' ' then "+"
  else if isFormUnreserved c then String.mk [c]
  else String.join ((utf8Bytes c).map pctByte)

/-- `url::form_urlencoded` serialization of a whole string. -/
def formUrlencode (s : String) : String :=
  String.join (s.data.map formEncodeChar)

/-- Serialization of a query-pair list as appended by
`url::form_urlencoded::Serializer` (pairs joined with `&`, keys and values
form-urlencoded). -/
def serializeQuery : List (String × String) → String
  | [] => ""
  | [(k, v)] => formUrlencode k ++ "=" ++ formUrlencode v
  | (k, v) :: rest => formUrlencode k ++ "=" ++ formUrlencode v ++ "&" ++ serializeQuery rest

/-! ## URL validity and the reqwest request builder -/

/-- Splits a character list at the first occurrence of `://`, returning the
part before and the part after it. -/
def splitScheme : List Char → Option (List Char × List Char)
  | [] => none
  | c :: rest =>
    if c = ':' && rest.take 2 = ['/', '/'] then some ([], rest.drop 2)
    else (splitScheme rest).map (fun p => (c :: p.1, p.2))

/-- Modelled from the spec: a well-formed absolute URL in the sense of
section 4.2 (`redirect_url` an "absolute URL string"), and of `url::Url::parse`
succeeding for the URLs in scope: a non-empty alphabetic scheme, `://`, and a
non-empty remainder. -/
def isWellFormedAbsoluteUrl (s : String) : Bool :=
  match splitScheme s.data with
  | some (scheme, rest) =>
    decide (scheme ≠ []) && scheme.all Char.isAlpha && decide (rest ≠ [])
  | none => false

/-- Model of reqwest errors as they can reach `generate_auth_code_url`:
the only fallible step is parsing the URL given to `Client::get`. -/
inductive ReqError where
  | invalidUrl : ReqError

/-- Model of `reqwest::blocking::RequestBuilder` as used by this program:
the result of parsing the URL handed to `get`, and the accumulated query
pairs. -/
structure RequestBuilder where
  url : Option String
  pairs : List (String × String)

/-- `Client::new().get(url)`: parses the URL now, the failure surfaces at
`build()`. -/
def clientGet (url : String) : RequestBuilder :=
  { url := if isWellFormedAbsoluteUrl url then some url else none, pairs := [] }

/-- `RequestBuilder::query(&[...])`: appends the pairs. -/
def RequestBuilder.query (r : RequestBuilder) (ps : List (String × String)) : RequestBuilder :=
  { r with pairs := r.pairs ++ ps }

/-- `RequestBuilder::build()?.url().as_str().to_string()`: fails exactly when
the URL given to `get` did not parse; otherwise the URL with the serialized
query appended (no `?` when no pair was added). -/
def RequestBuilder.buildUrl (r : RequestBuilder) : Except ReqError String :=
  match r.url with
  | some u =>
    .ok (u ++ (if r.pairs.isEmpty then "" else "?" ++ serializeQuery r.pairs))
  | none => .error .invalidUrl

/-! ## Authorization URL builder (`generate_auth_code_url`) -/

/-- The embedding of `generate_auth_code_url` (`src/main.rs` lines 116-132):
joins the permissions with single spaces, builds a GET request against
`AUTH_URL` with the five query pairs in source order, and returns the built
URL as a string. -/
def generate_auth_code_url (client_id redirect_url : String)
    (permissions : List String) (csrf : String) : Except ReqError String :=
  let permissions_str := String.intercalate " " permissions
  let response := (clientGet AUTH_URL).query
    [("response_type", "code"), ("client_id", client_id),
     ("redirect_uri", redirect_url), ("state", csrf),
     ("scope", permissions_str)]
  response.buildUrl

/-! ## CSRF state generation (`generate_csrf`) -/

/-- The URL-safe base64 alphabet of `base64::URL_SAFE_NO_PAD`. -/
def b64UrlAlphabet : List Char :=
  "ABCDEFGHIJKLMNOPQRSTUVWXYZabcdefghijklmnopqrstuvwxyz0123456789-_".data

/-- Alphabet character at index `i` (indices are always below 64 here). -/
def b64Char (i : Nat) : Char :=
  b64UrlAlphabet.getD i 'A'

/-- Index of a character in the URL-safe alphabet (64 when absent). -/
def b64Index (c : Char) : Nat :=
  b64UrlAlphabet.indexOf c

/-- `base64::encode_config(bytes, base64::URL_SAFE_NO_PAD)`: standard base64
over the URL-safe alphabet, 3 bytes to 4 characters, final 1 or 2 bytes to
2 or 3 characters, no padding. -/
def base64UrlNoPadEncode : List Nat → List Char
  | [] => []
  | [b1] => [b64Char (b1 / 4), b64Char (b1 % 4 * 16)]
  | [b1, b2] => [b64Char (b1 / 4), b64Char (b1 % 4 * 16 + b2 / 16), b64Char (b2 % 16 * 4)]
  | b1 :: b2 :: b3 :: rest =>
    b64Char (b1 / 4) :: b64Char (b1 % 4 * 16 + b2 / 16) ::
    b64Char (b2 % 16 * 4 + b3 / 64) :: b64Char (b3 % 64) :: base64UrlNoPadEncode rest

/-- Inverse of `base64UrlNoPadEncode` on its image (a witness that the
encoding loses no information). -/
def base64UrlNoPadDecode : List Char → List Nat
  | [] => []
  | [_] => []
  | [c1, c2] => [b64Index c1 * 4 + b64Index c2 / 16]
  | [c1, c2, c3] =>
    [b64Index c1 * 4 + b64Index c2 / 16, b64Index c2 % 16 * 16 + b64Index c3 / 4]
  | c1 :: c2 :: c3 :: c4 :: rest =>
    (b64Index c1 * 4 + b64Index c2 / 16) :: (b64Index c2 % 16 * 16 + b64Index c3 / 4) ::
    (b64Index c3 % 4 * 64 + b64Index c4) :: base64UrlNoPadDecode rest

/-- Number of random bytes `generate_csrf` draws (`(0..256)` in the source). -/
def csrfNumBytes : Nat := 256

/-- The embedding of `generate_csrf` (`src/main.rs` lines 86-89): draws 256
bytes from `thread_rng` (modelled as the stream `rng` of draws, reduced mod
256 as `gen::<u8>` yields a byte) and base64url-encodes them without
padding. -/
def generate_csrf (rng : Nat → Nat) : String :=
  let random_bytes : List Nat := (List.range csrfNumBytes).map (fun i => rng i % 256)
  String.mk (base64UrlNoPadEncode random_bytes)

/-! ## Flow controller (`controller`) -/

/-- The caller-supplied CLI arguments the controller reads. -/
structure Args where
  clientId : String
  clientSecret : String
  permissions : List String
  redirectUrl : String

/-- Arguments of the one `generate_auth_code_url` call the controller makes. -/
structure UrlCallArgs where
  clientId : String
  redirectUrl : String
  permissions : List String
  state : String
deriving DecidableEq

/-- Arguments of the one `request_access_key` call the controller makes. -/
structure ExchangeCallArgs where
  clientId : String
  clientSecret : String
  code : String
  redirectUrl : String
  state : String
deriving DecidableEq

/-- Trace of one `controller` run: the CSRF value it generated, the
arguments of its URL-builder call, and the arguments of its exchange call
(`none` when the run ended before the exchange, i.e. when the URL builder
failed and `?` returned early). -/
structure ControllerTrace where
  csrf : String
  urlCall : UrlCallArgs
  exchangeCall : Option ExchangeCallArgs

/-- The embedding of `controller` (`src/main.rs` lines 135-163): generates
the CSRF state once, reads the arguments, builds the authorization URL with
them, then reads one line from stdin (`stdinLine` is exactly the string
`read_line` appends, trailing newline included) and passes it, with the
same `client_id`, `redirect_url` and `csrf`, to the token exchange. -/
def controller (rng : Nat → Nat) (args : Args) (stdinLine : String) : ControllerTrace :=
  let csrf := generate_csrf rng
  let client_id := args.clientId
  let redirect_url := args.redirectUrl
  let permissions := args.permissions
  let client_secret := args.clientSecret
  let urlCall : UrlCallArgs :=
    { clientId := client_id, redirectUrl := redirect_url
      permissions := permissions, state := csrf }
  match generate_auth_code_url client_id redirect_url permissions csrf with
  | .error _ => { csrf := csrf, urlCall := urlCall, exchangeCall := none }
  | .ok _ =>
    let authorization_code := stdinLine
    { csrf := csrf, urlCall := urlCall
      exchangeCall := some
        { clientId := client_id, clientSecret := client_secret
          code := authorization_code, redirectUrl := redirect_url, state := csrf } }

/-- Modelled from the spec: removal of trailing whitespace (the trimming
that sections 4.3 and 9 require before the pasted code is used). -/
def rtrimWhitespace (s : String) : String :=
  String.mk (s.data.reverse.dropWhile Char.isWhitespace).reverse

/-! ## Helper lemmas about the base64 encoder -/

theorem b64UrlAlphabet_length : b64UrlAlphabet.length = 64 := rfl

theorem b64Char_mem (i : Nat) : b64Char i ∈ b64UrlAlphabet := by
  by_cases h : i < 64
  · revert h
    revert i
    decide
  · unfold b64Char
    rw [List.getD_eq_default]
    · decide
    · rw [b64UrlAlphabet_length]
      omega

theorem b64Index_b64Char (i : Nat) (h : i < 64) : b64Index (b64Char i) = i := by
  revert i
  decide

theorem base64UrlNoPadEncode_mem (l : List Nat) :
    ∀ c ∈ base64UrlNoPadEncode l, c ∈ b64UrlAlphabet := by
  induction l using base64UrlNoPadEncode.induct with
  | case1 => intro c hc; simp [base64UrlNoPadEncode] at hc
  | case2 b1 =>
    intro c hc
    simp only [base64UrlNoPadEncode, List.mem_cons, List.not_mem_nil, or_false] at hc
    rcases hc with rfl | rfl <;> exact b64Char_mem _
  | case3 b1 b2 =>
    intro c hc
    simp only [base64UrlNoPadEncode, List.mem_cons, List.not_mem_nil, or_false] at hc
    rcases hc with rfl | rfl | rfl <;> exact b64Char_mem _
  | case4 b1 b2 b3 rest ih =>
    intro c hc
    simp only [base64UrlNoPadEncode, List.mem_cons] at hc
    rcases hc with rfl | rfl | rfl | rfl | hc
    · exact b64Char_mem _
    · exact b64Char_mem _
    · exact b64Char_mem _
    · exact b64Char_mem _
    · exact ih c hc

theorem base64UrlNoPadDecode_encode (l : List Nat) (h : ∀ b ∈ l, b < 256) :
    base64UrlNoPadDecode (base64UrlNoPadEncode l) = l := by
  induction l using base64UrlNoPadEncode.induct with
  | case1 => rfl
  | case2 b1 =>
    have hb1 : b1 < 256 := h b1 (by simp)
    simp only [base64UrlNoPadEncode, base64UrlNoPadDecode]
    rw [b64Index_b64Char _ (by omega), b64Index_b64Char _ (by omega)]
    congr 1
    omega
  | case3 b1 b2 =>
    have hb1 : b1 < 256 := h b1 (by simp)
    have hb2 : b2 < 256 := h b2 (by simp)
    simp only [base64UrlNoPadEncode, base64UrlNoPadDecode]
    rw [b64Index_b64Char _ (by omega), b64Index_b64Char _ (by omega),
      b64Index_b64Char _ (by omega)]
    congr 1
    · omega
    · congr 1
      omega
  | case4 b1 b2 b3 rest ih =>
    have hb1 : b1 < 256 := h b1 (by simp)
    have hb2 : b2 < 256 := h b2 (by simp)
    have hb3 : b3 < 256 := h b3 (by simp)
    have hrest : ∀ b ∈ rest, b < 256 := by
      intro b hb
      exact h b (by simp [hb])
    simp only [base64UrlNoPadEncode, base64UrlNoPadDecode]
    rw [b64Index_b64Char _ (by omega), b64Index_b64Char _ (by omega),
      b64Index_b64Char _ (by omega), b64Index_b64Char _ (by omega)]
    congr 1
    · omega
    · congr 1
      · omega
      · congr 1
        · omega
        · exact ih hrest

theorem base64UrlNoPadEncode_length (l : List Nat) :
    (base64UrlNoPadEncode l).length = (4 * l.length + 2) / 3 := by
  induction l using base64UrlNoPadEncode.induct with
  | case1 => simp [base64UrlNoPadEncode]
  | case2 b1 => simp [base64UrlNoPadEncode]
  | case3 b1 b2 => simp [base64UrlNoPadEncode]
  | case4 b1 b2 b3 rest ih =>
    simp only [base64UrlNoPadEncode, List.length_cons, ih]
    omega

theorem alphabet_char_ok :
    ∀ c ∈ b64UrlAlphabet,
      (b64UrlAlphabet.contains c && (c != '+') && (c != '/') && (c != '=')) = true := by
  decide

/-! ## Helper lemma about the URL builder -/

/-- The URL builder always succeeds (the only URL it parses is the constant
`AUTH_URL`, which is well formed) and produces the endpoint followed by the
five query pairs in source order, keys and values form-urlencoded. -/
theorem generate_auth_code_url_eq (cid ru : String) (ps : List String) (st : String) :
    generate_auth_code_url cid ru ps st =
      .ok (AUTH_URL ++ ("?" ++ ("response_type=code&" ++
        (("client_id=" ++ formUrlencode cid ++ "&") ++
          (("redirect_uri=" ++ formUrlencode ru ++ "&") ++
            (("state=" ++ formUrlencode st ++ "&") ++
              ("scope=" ++ formUrlencode (String.intercalate " " ps)))))))) := rfl

/-! ## Claim theorems -/


/-- C1: for every provider response whose body parses as a JSON object whose
field `access_token` holds a string `s`, `request_access_key` returns
`Ok(s)` with `s` exactly as received. -/
theorem request_access_key_returns_token_exactly
    (cid cs code ru st s : String) (fields : List (String × Json))
    (h : fields.lookup "access_token" = some (Json.str s)) :
    (request_access_key cid cs code ru st (.resp (some (.obj fields)))).outcome =
      .ok s := by
  simp [request_access_key, Json.index, h]

/-- Witness for C1: the simulated response with body
`access_token abc123` yields exactly `abc123`. -/
theorem request_access_key_returns_token_exactly_witness :
    ([("access_token", Json.str "abc123")].lookup "access_token" =
      some (Json.str "abc123")) ∧
    (request_access_key "id1" "sec1" "code1" "https://localhost:8000" "st1"
      (.resp (some (.obj [("access_token", Json.str "abc123")])))).outcome =
      .ok "abc123" :=
  ⟨rfl, request_access_key_returns_token_exactly "id1" "sec1" "code1"
    "https://localhost:8000" "st1" "abc123" [("access_token", Json.str "abc123")] rfl⟩

/-- C2: for every parsed JSON object in which `access_token` is absent or
holds a non-string value, `request_access_key` returns the missing-token
error (`ValueError`), not a success, transport error or panic. -/
theorem request_access_key_missing_token_error
    (cid cs code ru st : String) (fields : List (String × Json))
    (h : ∀ s, fields.lookup "access_token" ≠ some (Json.str s)) :
    (request_access_key cid cs code ru st (.resp (some (.obj fields)))).outcome =
      .errValue := by
  cases hl : fields.lookup "access_token" with
  | none => simp [request_access_key, Json.index, hl]
  | some v =>
    cases v with
    | str s => exact absurd hl (h s)
    | null => simp [request_access_key, Json.index, hl]
    | bool b => simp [request_access_key, Json.index, hl]
    | num n => simp [request_access_key, Json.index, hl]
    | arr xs => simp [request_access_key, Json.index, hl]
    | obj fs => simp [request_access_key, Json.index, hl]

/-- Witness for C2: a provider error payload without `access_token`, and a
payload whose `access_token` is the number 12345, both yield the
missing-token error. -/
theorem request_access_key_missing_token_error_witness :
    ((request_access_key "id1" "sec1" "code1" "https://localhost:8000" "st1"
      (.resp (some (.obj [("error", Json.str "invalid_grant"),
        ("error_description", Json.str "grant invalid")])))).outcome = .errValue) ∧
    ((request_access_key "id1" "sec1" "code1" "https://localhost:8000" "st1"
      (.resp (some (.obj [("access_token", Json.num 12345)])))).outcome = .errValue) := by
  constructor
  · apply request_access_key_missing_token_error
    intro s hs
    have h1 : ([("error", Json.str "invalid_grant"),
        ("error_description", Json.str "grant invalid")].lookup "access_token" :
        Option Json) = none := rfl
    exact Option.noConfusion (h1.symm.trans hs)
  · apply request_access_key_missing_token_error
    intro s hs
    have h2 : ([("access_token", Json.num 12345)].lookup "access_token" :
        Option Json) = some (Json.num 12345) := rfl
    exact Json.noConfusion (Option.some.inj (h2.symm.trans hs))

/-- Counterexample to C3 as stated: on the valid-JSON-but-not-an-object body
given as the string value `not json`, the exchanger signals the
missing-token error rather than a distinct malformed-response error, and on
an unparsable body it panics (aborts) rather than returning an error. -/
theorem request_access_key_malformed_counterexample :
    ((request_access_key "id1" "sec1" "code1" "https://localhost:8000" "st1"
      (.resp (some (.str "not json")))).outcome = .errValue) ∧
    ((request_access_key "id1" "sec1" "code1" "https://localhost:8000" "st1"
      (.resp none)).outcome = .panics) :=
  ⟨rfl, rfl⟩

/-- C3 amended: on a body that is not valid JSON the exchanger panics
(`unwrap` aborts the program), and on a body that is valid JSON but not an
object it signals the missing-token error; no distinct malformed-response
error exists. -/
theorem request_access_key_nonobject_behavior (cid cs code ru st : String) :
    ((request_access_key cid cs code ru st (.resp none)).outcome = .panics) ∧
    (∀ j : Json, j.isObj = false →
      (request_access_key cid cs code ru st (.resp (some j))).outcome = .errValue) := by
  refine ⟨rfl, ?_⟩
  intro j hj
  cases j with
  | obj fields => simp [Json.isObj] at hj
  | null => rfl
  | bool b => rfl
  | num n => rfl
  | str s => rfl
  | arr xs => rfl

/-- Witness for the amended C3: the non-object body given as the string
value `not json` yields the missing-token error. -/
theorem request_access_key_nonobject_behavior_witness :
    (request_access_key "id1" "sec1" "code1" "https://localhost:8000" "st1"
      (.resp (some (.str "not json")))).outcome = .errValue :=
  (request_access_key_nonobject_behavior "id1" "sec1" "code1"
    "https://localhost:8000" "st1").2 (Json.str "not json") rfl

/-- C4 (failing evaluation): the controller passes the pasted line to the
token exchange exactly as read, so for the pasted line `abc123` followed by
a newline the `code` query value still carries the newline, while the
trimmed value the spec requires is `abc123`. -/
theorem controller_sends_untrimmed_code :
    ((controller (fun _ => 0)
      { clientId := "id1", clientSecret := "secret1",
        permissions := ["r_ads"], redirectUrl := "https://localhost:8000" }
      "abc123\n").exchangeCall.map ExchangeCallArgs.code = some "abc123\n") ∧
    ((request_access_key "id1" "secret1" "abc123\n" "https://localhost:8000" "st1"
      (.resp none)).queryPairs.lookup "code" = some "abc123\n") ∧
    rtrimWhitespace "abc123\n" = "abc123" ∧
    ("abc123\n" : String) ≠ "abc123" := by
  refine ⟨?_, rfl, rfl, by decide⟩
  simp [controller, generate_auth_code_url_eq]

set_option maxRecDepth 40000 in
/-- C5: the URL builder returns the fixed endpoint with exactly the query
parameters `response_type=code`, `client_id`, `redirect_uri`, `state` and
`scope` (the scopes joined by single spaces, form-urlencoded as one value),
and on the example inputs the URL contains `client_id=id1`,
`redirect_uri=https%3A%2F%2Flocalhost%3A8000` and the nonempty state. -/
theorem generate_auth_code_url_query_params
    (cid ru : String) (scopes : List String) (st : String) (h : scopes ≠ []) :
    (generate_auth_code_url cid ru scopes st =
      .ok (AUTH_URL ++ ("?" ++ ("response_type=code&" ++
        (("client_id=" ++ formUrlencode cid ++ "&") ++
          (("redirect_uri=" ++ formUrlencode ru ++ "&") ++
            (("state=" ++ formUrlencode st ++ "&") ++
              ("scope=" ++ formUrlencode (String.intercalate " " scopes))))))))) ∧
    (∃ url, generate_auth_code_url "id1" "https://localhost:8000" ["r_ads"] "st123" =
        .ok url ∧
      "client_id=id1".data <:+: url.data ∧
      "redirect_uri=https%3A%2F%2Flocalhost%3A8000".data <:+: url.data ∧
      "state=st123".data <:+: url.data ∧ ("st123" : String) ≠ "") := by
  refine ⟨generate_auth_code_url_eq cid ru scopes st, ⟨_, generate_auth_code_url_eq
    "id1" "https://localhost:8000" ["r_ads"] "st123", by decide, by decide, by decide,
    by decide⟩⟩

/-- Witness for C5: the example scope list is nonempty and the builder
succeeds on it. -/
theorem generate_auth_code_url_query_params_witness :
    ((["r_ads"] : List String) ≠ []) ∧
    (generate_auth_code_url "id1" "https://localhost:8000" ["r_ads"] "st123").isOk = true := by
  refine ⟨by decide, ?_⟩
  rw [(generate_auth_code_url_query_params "id1" "https://localhost:8000" ["r_ads"]
    "st123" (by decide)).1]
  rfl

/-- Counterexample to C6 as stated: the redirect URL is never validated; on
the malformed redirect URL `not a url` the builder still returns `Ok`,
embedding the value form-urlencoded in the query. -/
theorem generate_auth_code_url_no_redirect_validation :
    (isWellFormedAbsoluteUrl "not a url" = false) ∧
    (generate_auth_code_url "id1" "not a url" ["r_ads"] "st" =
      .ok "https://www.linkedin.com/oauth/v2/authorization?response_type=code&client_id=id1&redirect_uri=not+a+url&state=st&scope=r_ads") :=
  ⟨rfl, rfl⟩

/-- C6 amended: the URL builder is total: for every client id, redirect URL
(well-formed or not), scope list and state it returns `Ok`; the only URL it
parses is the well-formed constant `AUTH_URL`, so no failure path is
reachable and no invalid-redirect error exists. -/
theorem generate_auth_code_url_total (cid ru : String) (ps : List String) (st : String) :
    (generate_auth_code_url cid ru ps st).isOk = true := by
  rw [generate_auth_code_url_eq]
  rfl

/-- C7: one controller run generates the state once, and passes that same
state, the same client id and the same redirect URL both to the URL builder
and to the token exchange, with the pasted line as the code. -/
theorem controller_threads_values (rng : Nat → Nat) (args : Args) (line : String) :
    ((controller rng args line).csrf = generate_csrf rng) ∧
    ((controller rng args line).urlCall =
      { clientId := args.clientId, redirectUrl := args.redirectUrl,
        permissions := args.permissions, state := generate_csrf rng }) ∧
    ((controller rng args line).exchangeCall = some
      { clientId := args.clientId, clientSecret := args.clientSecret,
        code := line, redirectUrl := args.redirectUrl, state := generate_csrf rng }) := by
  refine ⟨?_, ?_, ?_⟩ <;> simp [controller, generate_auth_code_url_eq]

/-- C8: every output of `generate_csrf` uses only characters of the URL-safe
base64 alphabet (in particular none of `+`, `/`, `=`), and it encodes the
256 drawn bytes injectively (the decoder recovers all of them), so it
carries the full 8 * 256 = 2048 bits of randomness, at least 256. -/
theorem generate_csrf_urlsafe_and_entropy (rng : Nat → Nat) :
    (((generate_csrf rng).data.all
      (fun c => b64UrlAlphabet.contains c && (c != '+') && (c != '/') && (c != '='))) = true) ∧
    (base64UrlNoPadDecode (generate_csrf rng).data =
      (List.range csrfNumBytes).map (fun i => rng i % 256)) ∧
    8 * csrfNumBytes ≥ 256 := by
  refine ⟨?_, ?_, by norm_num [csrfNumBytes]⟩
  · simp only [generate_csrf]
    rw [List.all_eq_true]
    intro c hc
    exact alphabet_char_ok c (base64UrlNoPadEncode_mem _ c hc)
  · simp only [generate_csrf]
    apply base64UrlNoPadDecode_encode
    intro b hb
    simp only [List.mem_map] at hb
    obtain ⟨i, _, rfl⟩ := hb
    exact Nat.mod_lt _ (by norm_num)

/-- C9: every output of `generate_csrf` has exactly 342 characters,
whatever the random draws are. -/
theorem generate_csrf_length_342 (rng : Nat → Nat) :
    (generate_csrf rng).length = 342 := by
  show (base64UrlNoPadEncode ((List.range csrfNumBytes).map (fun i => rng i % 256))).length = 342
  rw [base64UrlNoPadEncode_length]
  simp [csrfNumBytes]

/-- C10: the URL builder does not enforce a non-empty scope list: on an
empty list it still returns `Ok`, and the scope query parameter's value is
the empty string. -/
theorem generate_auth_code_url_empty_scopes (cid ru st : String) :
    (generate_auth_code_url cid ru [] st =
      .ok (AUTH_URL ++ ("?" ++ ("response_type=code&" ++
        (("client_id=" ++ formUrlencode cid ++ "&") ++
          (("redirect_uri=" ++ formUrlencode ru ++ "&") ++
            (("state=" ++ formUrlencode st ++ "&") ++ ("scope=" ++ "")))))))) ∧
    (formUrlencode (String.intercalate " " ([] : List String)) = "") := by
  constructor
  · rw [generate_auth_code_url_eq]
    rfl
  · rfl

end LinkedInAuth

